import Mathlib

/-
Verification of the DHL truck-assignment optimization model
(repository: optimization-of-transport, file optimization.py).

The development shallowly embeds the model-building code of the class
DHL_Optimization: the derived route/consignment/valid-combination lists,
the table lookups used during constraint generation, the six constraint
families added to the mixed-integer model, the variable/constraint
counting of the persisting solver model, the shift-time normalization,
and the solution-extraction step.  Binary decision variables are
embedded as Bool, continuous variables as rationals, and the integer
day-wrap correction variables as naturals (their solver lower bound
is zero).
-/

namespace DHLOpt

/-- Facility identifiers are the string identifiers used in the tables. -/
abbrev ID := String

/-- Wall-clock time of day, as pandas exposes it through the hour and
minute accessors of a timestamp. -/
structure ClockTime where
  hour : Nat
  minute : Nat
deriving DecidableEq, Repr

/-- One row of the source (consignment) table, after preprocessing:
columns id, Origin_ID, Destination_ID, planned_end_of_loading and
Consignment quantity. -/
structure SourceRow where
  id : Nat
  Origin_ID : ID
  Destination_ID : ID
  planned_end_of_loading : ClockTime
  Consignment_quantity : ℚ
deriving DecidableEq, Repr

/-- One row of the destination table after shift normalization: columns
Destination_ID, Start of shift, End of lay-on and Sorting capacity,
with the two shift columns already converted to fractional hours. -/
structure DestRow where
  Destination_ID : ID
  Start_of_shift : ℚ
  End_of_lay_on : ℚ
  Sorting_capacity : ℚ
deriving DecidableEq, Repr

/-- One row of the trucking (lane) table: columns Origin_ID,
Destination_ID and OSRM_time in seconds. -/
structure TruckRow where
  Origin_ID : ID
  Destination_ID : ID
  OSRM_time_sek : ℚ
deriving DecidableEq, Repr

/-- The inputs of one optimization run: the three data tables together
with the selected source list and the selected destination. -/
structure OptInput where
  source_df : List SourceRow
  destination_df : List DestRow
  trucking_df : List TruckRow
  source_list : List ID
  destination : ID
deriving DecidableEq, Repr

/-- Shift-time normalization of one destination row (method normalize):
both timestamps become fractional hours and an end hour that is
strictly below the start hour gets 24 added, moving it to the next
day. -/
def normalize (startT endT : ClockTime) : ℚ × ℚ :=
  let start_hour : ℚ := (startT.hour : ℚ) + (startT.minute : ℚ) / 60
  let end_hour : ℚ := (endT.hour : ℚ) + (endT.minute : ℚ) / 60
  if end_hour < start_hour then (start_hour, end_hour + 24)
  else (start_hour, end_hour)

/-- The route list built by the model builder: each selected source is
paired with the single selected destination, skipping a source equal to
the destination. -/
def routes_list (inp : OptInput) : List (ID × ID) :=
  (inp.source_list.filter (fun i => i != inp.destination)).map
    (fun i => (i, inp.destination))

/-- Consignment ids of the source rows whose origin and destination
match the given route. -/
def consignment_ids (src : List SourceRow) (i j : ID) : List Nat :=
  (src.filter (fun r => r.Origin_ID == i && r.Destination_ID == j)).map
    (fun r => r.id)

/-- The consignment list of the run: ids collected route by route. -/
def consignment_list (inp : OptInput) : List Nat :=
  (routes_list inp).flatMap (fun p => consignment_ids inp.source_df p.1 p.2)

/-- The valid (origin, destination, consignment) combinations: for each
route, the consignments of the run whose source row matches that
route. -/
def valid_combinations (inp : OptInput) : List (ID × ID × Nat) :=
  (routes_list inp).flatMap (fun p =>
    ((consignment_list inp).filter
        (fun k => (consignment_ids inp.source_df p.1 p.2).contains k)).map
      (fun k => (p.1, p.2, k)))

/-- First destination row with the given id, as the pandas filter
followed by taking element zero of the values does. -/
def destLookup (inp : OptInput) (j : ID) : Option DestRow :=
  inp.destination_df.find? (fun r => r.Destination_ID == j)

/-- First lane row with the given origin and destination. -/
def laneLookup (inp : OptInput) (i j : ID) : Option TruckRow :=
  inp.trucking_df.find? (fun r => r.Origin_ID == i && r.Destination_ID == j)

/-- First source row with the given consignment id. -/
def sourceLookup (inp : OptInput) (k : Nat) : Option SourceRow :=
  inp.source_df.find? (fun r => r.id == k)

/-- The release bound the model uses for a consignment: the hour
component of the planned end of loading, as extracted through the
pandas dt.hour accessor.  Minutes are discarded. -/
def releaseHourOf (t : ClockTime) : Nat :=
  t.hour

/-- Release bound of consignment k, read from the source table. -/
def releaseOf (inp : OptInput) (k : Nat) : Option Nat :=
  (sourceLookup inp k).map (fun r => releaseHourOf r.planned_end_of_loading)

/-- The actual release instant of a consignment in fractional hours,
used to compare the whole-hour bound of the model with the timestamp
it was taken from. -/
def instantHours (t : ClockTime) : ℚ :=
  (t.hour : ℚ) + (t.minute : ℚ) / 60

/-- Value of a binary decision variable as a natural number. -/
def bnat (b : Bool) : Nat :=
  if b then 1 else 0

/-- Value of a binary decision variable as a rational. -/
def b2q (b : Bool) : ℚ :=
  if b then 1 else 0

/-- A candidate assignment of all decision variables created by the
model: the binaries X (assignment), Z (truck used) and ArrivalDayBinary
as Bool, the continuous departure time T as a rational, and the integer
day-wrap correction variables added inside constraint family 3, indexed
per (origin, destination, consignment, truck) tuple, as naturals (their
solver lower bound is zero). -/
structure Solution where
  X : ID → ID → Nat → Nat → Bool
  Z : Nat → Bool
  T : Nat → ℚ
  ADB : Nat → Nat → Bool
  M : ID → ID → Nat → Nat → Nat

/-- Constraint family 1: each truck carries at most two consignments
and only if it is used. -/
def constr1Sat (inp : OptInput) (sol : Solution) : Prop :=
  ∀ l < 300,
    ((valid_combinations inp).map
        (fun t => bnat (sol.X t.1 t.2.1 t.2.2 l))).sum ≤ 2 * bnat (sol.Z l)

/-- One member of constraint family 2: the departure time of the truck
is at least the release bound scaled by the assignment binary. -/
def constr2Single (r : Nat) (x : Bool) (t : ℚ) : Prop :=
  (r : ℚ) * b2q x ≤ t

/-- Constraint family 2: for every valid combination and every truck,
the departure time respects the release bound of the consignment
whenever the release lookup succeeds. -/
def constr2Sat (inp : OptInput) (sol : Solution) : Prop :=
  ∀ t ∈ valid_combinations inp, ∀ l < 300, ∀ r,
    releaseOf inp t.2.2 = some r →
    constr2Single r (sol.X t.1 t.2.1 t.2.2 l) (sol.T l)

/-- Day offset term of the arrival expression: the sum of (d - 1) times
the arrival-day binary over days 1 to 6. -/
def dayOffset (sol : Solution) (l : Nat) : ℚ :=
  ∑ d ∈ Finset.Icc (1 : Nat) 6, ((d : ℚ) - 1) * b2q (sol.ADB l d)

/-- The effective arrival expression of constraint family 3: departure
time, plus travel time scaled by the assignment binary, plus 24 times
the day offset, minus 24 times the integer day-wrap correction variable
of the tuple. -/
def arrivalExpr (sol : Solution) (i j : ID) (k l : Nat) (tt : ℚ) : ℚ :=
  sol.T l + tt * b2q (sol.X i j k l) + 24 * dayOffset sol l
    - 24 * (sol.M i j k l : ℚ)

/-- One generated constraint pair of family 3, recording the tuple it
was generated for together with the numbers looked up from the
destination and lane tables. -/
structure C3Rec where
  i : ID
  j : ID
  k : Nat
  l : Nat
  start_shift : ℚ
  end_shift : ℚ
  travel_time : ℚ
deriving DecidableEq, Repr

/-- Satisfaction of one generated family-3 constraint pair: the arrival
expression of the tuple lies between the shift start and the shift end
of the destination. -/
def sat3 (c : C3Rec) (sol : Solution) : Prop :=
  c.start_shift ≤ arrivalExpr sol c.i c.j c.k c.l c.travel_time ∧
  arrivalExpr sol c.i c.j c.k c.l c.travel_time ≤ c.end_shift

instance (c : C3Rec) (sol : Solution) : Decidable (sat3 c sol) := by
  unfold sat3
  exact instDecidableAnd

/-- Python exception values relevant to the embedded paths.  The code
raises IndexError (element zero of an empty pandas selection) and
UnboundLocalError (reading a local that was never assigned); the value
dataValidationError stands for the DataValidationError named by the
specification, which the code never defines nor raises. -/
inductive PyErr where
  | indexError
  | unboundLocalError
  | dataValidationError
deriving DecidableEq, Repr

/-- The 300 family-3 constraint pairs generated for one valid
combination, one per truck of the pool. -/
def genC3Tuple (dr : DestRow) (tr : TruckRow) (i j : ID) (k : Nat) :
    List C3Rec :=
  (List.range 300).map (fun l =>
    { i := i, j := j, k := k, l := l,
      start_shift := dr.Start_of_shift,
      end_shift := dr.End_of_lay_on,
      travel_time := tr.OSRM_time_sek / 3600 })

/-- Family-3 generation over a list of valid combinations: each tuple
first looks up the destination row, then the lane row; a missing row
raises IndexError at the first failing tuple, exactly as element zero
of an empty pandas values array does. -/
def genC3Aux (inp : OptInput) : List (ID × ID × Nat) → Except PyErr (List C3Rec)
  | [] => Except.ok []
  | t :: rest =>
    match destLookup inp t.2.1 with
    | none => Except.error PyErr.indexError
    | some dr =>
      match laneLookup inp t.1 t.2.1 with
      | none => Except.error PyErr.indexError
      | some tr =>
        match genC3Aux inp rest with
        | Except.error e => Except.error e
        | Except.ok cs => Except.ok (genC3Tuple dr tr t.1 t.2.1 t.2.2 ++ cs)

/-- Family-3 generation of the run, over all valid combinations. -/
def genC3 (inp : OptInput) : Except PyErr (List C3Rec) :=
  genC3Aux inp (valid_combinations inp)

/-- Constraint family 4 as written in the code: for every valid
combination, the sum over all trucks of the product of the assignment
binary and the used binary equals one. -/
def constr4Sat (inp : OptInput) (sol : Solution) : Prop :=
  ∀ t ∈ valid_combinations inp,
    ∑ l ∈ Finset.range 300,
      bnat (sol.X t.1 t.2.1 t.2.2 l) * bnat (sol.Z l) = 1

/-- Constraint family 6 for one truck, as written in the code: the sum
over days 1 to 6 of the product of the arrival-day binary and the used
binary equals one.  The constraint is added for every truck of the
pool, used or not. -/
def constr6 (sol : Solution) (l : Nat) : Prop :=
  ∑ d ∈ Finset.Icc 1 6, bnat (sol.ADB l d) * bnat (sol.Z l) = 1

/-- Constraint family 6 over the whole pool of 300 trucks. -/
def constr6Sat (sol : Solution) : Prop :=
  ∀ l < 300, constr6 sol l

/-- Structural size of the persisting solver model: how many variables
and how many constraints have been added to it so far.  The model
object is created once in the constructor of DHL_Optimization and is
never recreated by later build calls. -/
structure GModel where
  numVars : Nat
  numConstrs : Nat
deriving DecidableEq, Repr

/-- Variable additions performed by the model-building method on the
persisting model: one X binary per valid combination and truck, and
per truck one Z binary, one T, one ArrivalTime and six arrival-day
binaries.  No constraints are added in this phase. -/
def initModel (inp : OptInput) (m : GModel) : GModel :=
  { numVars := m.numVars + (valid_combinations inp).length * 300
      + 300 * 3 + 300 * 6,
    numConstrs := m.numConstrs }

/-- Additions performed by the constraint-building method: family 1
adds one constraint per truck; family 2 one per valid combination and
truck; family 3 one fresh integer variable and two constraints per
valid combination and truck; family 4 one per valid combination;
family 5 six constraints for the single destination; family 6 one per
truck. -/
def add_constraints (inp : OptInput) (m : GModel) : GModel :=
  { numVars := m.numVars + (valid_combinations inp).length * 300,
    numConstrs := m.numConstrs + 300 + (valid_combinations inp).length * 300
      + 2 * ((valid_combinations inp).length * 300)
      + (valid_combinations inp).length + 6 + 300 }

/-- One build: the model-building method followed by the
constraint-building method, both acting on the persisting model. -/
def buildOnce (inp : OptInput) (m : GModel) : GModel :=
  add_constraints inp (initModel inp m)

/-- Solver termination statuses distinguished by the solve method: the
three statuses of its success branch, and the infeasible and failure
statuses the specification names for the other branch. -/
inductive GStatus where
  | OPTIMAL
  | TIME_LIMIT
  | SUBOPTIMAL
  | INFEASIBLE
  | FAILED
deriving DecidableEq, Repr

/-- One row of the output table built by the solve method. -/
structure OutRecord where
  origin : ID
  destination : ID
  consignment : Nat
  truck : Nat
  departure : ℚ
  arrivalDay : ℚ
deriving DecidableEq, Repr

/-- The record rows collected by the solve method: one row per key of
X whose truck is used and whose assignment binary is one, carrying the
departure time and the weighted arrival-day sum. -/
def extractRecords (inp : OptInput) (sol : Solution) : List OutRecord :=
  (valid_combinations inp).flatMap (fun t =>
    ((List.range 300).filter
        (fun l => sol.Z l && sol.X t.1 t.2.1 t.2.2 l)).map
      (fun l =>
        { origin := t.1, destination := t.2.1, consignment := t.2.2,
          truck := l, departure := sol.T l,
          arrivalDay :=
            ∑ d ∈ Finset.Icc (1 : Nat) 6, (d : ℚ) * b2q (sol.ADB l d) }))

/-- Outcome of the solve method after the solver returns.  In the
success branch the output table df_out is assigned and displayed; in
every other branch df_out is never assigned, and the display call that
follows the branch reads it anyway, raising UnboundLocalError. -/
def solve (status : GStatus) (inp : OptInput) (sol : Solution) :
    Except PyErr (List OutRecord) :=
  match status with
  | GStatus.OPTIMAL => Except.ok (extractRecords inp sol)
  | GStatus.TIME_LIMIT => Except.ok (extractRecords inp sol)
  | GStatus.SUBOPTIMAL => Except.ok (extractRecords inp sol)
  | GStatus.INFEASIBLE => Except.error PyErr.unboundLocalError
  | GStatus.FAILED => Except.error PyErr.unboundLocalError

/-- Concrete run input with one consignment from source A to
destination B, a matching lane of one hour, and an all-day shift
window. -/
def inpA : OptInput :=
  { source_df :=
      [{ id := 7, Origin_ID := "A", Destination_ID := "B",
         planned_end_of_loading := { hour := 8, minute := 30 },
         Consignment_quantity := 921 }],
    destination_df :=
      [{ Destination_ID := "B", Start_of_shift := 0,
         End_of_lay_on := 24, Sorting_capacity := 10 }],
    trucking_df :=
      [{ Origin_ID := "A", Destination_ID := "B",
         OSRM_time_sek := 3600 }],
    source_list := ["A"],
    destination := "B" }

/-- The same run input with an empty lane table, so the single valid
combination has no matching lane entry. -/
def inpNoLane : OptInput :=
  { source_df := inpA.source_df,
    destination_df := inpA.destination_df,
    trucking_df := [],
    source_list := inpA.source_list,
    destination := inpA.destination }

/-- The all-zero assignment: nothing assigned, no truck used, all
departure times zero. -/
def zeroSol : Solution :=
  { X := fun _ _ _ _ => false, Z := fun _ => false, T := fun _ => 0,
    ADB := fun _ _ => false, M := fun _ _ _ _ => 0 }

/-- Assignment where truck 0 carries the single consignment of inpA,
departing at hour 8 with arrival day 1. -/
def solA : Solution :=
  { X := fun i j k l => i == "A" && j == "B" && k == 7 && l == 0,
    Z := fun l => l == 0,
    T := fun _ => 8,
    ADB := fun l d => l == 0 && d == 1,
    M := fun _ _ _ _ => 0 }

/-- Assignment where every truck of the pool is used and arrives on
day 1. -/
def solDay : Solution :=
  { X := fun _ _ _ _ => false, Z := fun _ => true, T := fun _ => 0,
    ADB := fun _ d => d == 1, M := fun _ _ _ _ => 0 }

/-- The family-3 constraint list generated for inpA. -/
def csA : List C3Rec :=
  match genC3 inpA with
  | Except.ok cs => cs
  | Except.error _ => []

/-- Helper: in a list of naturals with sum zero, every member is
zero. -/
lemma sum_zero_of_mem {L : List Nat} (h : L.sum = 0) {x : Nat}
    (hx : x ∈ L) : x = 0 := by
  induction L with
  | nil => cases hx
  | cons a t ih =>
    rw [List.sum_cons, Nat.add_eq_zero] at h
    rcases List.mem_cons.mp hx with h1 | h2
    · exact h1 ▸ h.1
    · exact ih h.2 h2

/-- Helper: the family-6 constraint of a truck forces its used binary
to one, because with the used binary at zero the left-hand sum is zero
while the right-hand side is one. -/
lemma constr6_forces_used {sol : Solution} {l : Nat}
    (h : constr6 sol l) : sol.Z l = true := by
  by_contra hzc
  have hz : sol.Z l = false := by
    cases hzz : sol.Z l
    · rfl
    · exact absurd hzz hzc
  simp [constr6, hz, bnat] at h

/-- Helper: the family-6 constraint of a truck forces exactly one of
its six arrival-day binaries to one. -/
lemma constr6_day_sum {sol : Solution} {l : Nat} (h : constr6 sol l) :
    ∑ d ∈ Finset.Icc (1 : Nat) 6, bnat (sol.ADB l d) = 1 := by
  have hz := constr6_forces_used h
  unfold constr6 at h
  simpa [hz, bnat] using h

/-- C10: after shift-time normalization the start hour is at most the
end hour, the end hour is at most the start hour plus 24, an end hour
strictly below the start hour gets exactly 24 added, and otherwise
both hours are returned unchanged. -/
theorem normalize_window (a b : ClockTime)
    (ha1 : a.hour ≤ 23) (ha2 : a.minute ≤ 59)
    (hb1 : b.hour ≤ 23) (hb2 : b.minute ≤ 59) :
    (normalize a b).1 ≤ (normalize a b).2 ∧
    (normalize a b).2 ≤ (normalize a b).1 + 24 ∧
    ((b.hour : ℚ) + (b.minute : ℚ) / 60 < (a.hour : ℚ) + (a.minute : ℚ) / 60 →
      normalize a b = ((a.hour : ℚ) + (a.minute : ℚ) / 60,
        (b.hour : ℚ) + (b.minute : ℚ) / 60 + 24)) ∧
    (¬ ((b.hour : ℚ) + (b.minute : ℚ) / 60 < (a.hour : ℚ) + (a.minute : ℚ) / 60) →
      normalize a b = ((a.hour : ℚ) + (a.minute : ℚ) / 60,
        (b.hour : ℚ) + (b.minute : ℚ) / 60)) := by
  have hA : (a.hour : ℚ) ≤ 23 := by exact_mod_cast ha1
  have hA2 : (a.minute : ℚ) ≤ 59 := by exact_mod_cast ha2
  have hB : (b.hour : ℚ) ≤ 23 := by exact_mod_cast hb1
  have hB2 : (b.minute : ℚ) ≤ 59 := by exact_mod_cast hb2
  have h0A : (0 : ℚ) ≤ (a.hour : ℚ) := Nat.cast_nonneg _
  have h0A2 : (0 : ℚ) ≤ (a.minute : ℚ) := Nat.cast_nonneg _
  have h0B : (0 : ℚ) ≤ (b.hour : ℚ) := Nat.cast_nonneg _
  have h0B2 : (0 : ℚ) ≤ (b.minute : ℚ) := Nat.cast_nonneg _
  unfold normalize
  dsimp only
  split_ifs with hlt
  · refine ⟨by linarith, by linarith, fun _ => rfl, fun hc => absurd hlt hc⟩
  · refine ⟨by simpa using hlt, by push_neg at hlt; linarith,
      fun hc => absurd hc hlt, fun _ => rfl⟩

/-- C10 witness: normalization of a shift starting 22:30 and ending
06:15 at an explicit input. -/
theorem normalize_window_witness :
    (normalize { hour := 22, minute := 30 } { hour := 6, minute := 15 }).1
        ≤ (normalize { hour := 22, minute := 30 } { hour := 6, minute := 15 }).2 ∧
    (normalize { hour := 22, minute := 30 } { hour := 6, minute := 15 }).2
        ≤ (normalize { hour := 22, minute := 30 } { hour := 6, minute := 15 }).1 + 24 ∧
    (((6 : Nat) : ℚ) + ((15 : Nat) : ℚ) / 60 < ((22 : Nat) : ℚ) + ((30 : Nat) : ℚ) / 60 →
      normalize { hour := 22, minute := 30 } { hour := 6, minute := 15 }
        = (((22 : Nat) : ℚ) + ((30 : Nat) : ℚ) / 60,
           ((6 : Nat) : ℚ) + ((15 : Nat) : ℚ) / 60 + 24)) ∧
    (¬ (((6 : Nat) : ℚ) + ((15 : Nat) : ℚ) / 60 < ((22 : Nat) : ℚ) + ((30 : Nat) : ℚ) / 60) →
      normalize { hour := 22, minute := 30 } { hour := 6, minute := 15 }
        = (((22 : Nat) : ℚ) + ((30 : Nat) : ℚ) / 60,
           ((6 : Nat) : ℚ) + ((15 : Nat) : ℚ) / 60)) :=
  normalize_window { hour := 22, minute := 30 } { hour := 6, minute := 15 }
    (by decide) (by decide) (by decide) (by decide)

/-- C2: when the solver reports an infeasible or failed status, the
solve method does not return an empty annotated result; the display
call after the status branch reads the never-assigned local df_out and
raises UnboundLocalError. -/
theorem solve_nonoptimal_unbound (inp : OptInput) (sol : Solution) :
    solve GStatus.INFEASIBLE inp sol = Except.error PyErr.unboundLocalError ∧
    solve GStatus.FAILED inp sol = Except.error PyErr.unboundLocalError :=
  ⟨rfl, rfl⟩

/-- C3 counterexample: the family-6 constraint is generated for every
truck of the pool, and the all-zero assignment, in which truck 0 is
not used and has no arrival-day indicator, violates it; an unused
truck is therefore not free of the arrival-day requirement. -/
theorem arrivalday_unused_truck_constrained :
    zeroSol.Z 0 = false ∧ ¬ constr6 zeroSol 0 := by
  constructor
  · rfl
  · unfold constr6
    decide

/-- C3 amended: the family-6 constraint of any truck, used or not,
forces the truck to be used and to have exactly one arrival-day
indicator set. -/
theorem arrivalday_amended (sol : Solution) (l : Nat)
    (h : constr6 sol l) :
    sol.Z l = true ∧
    ∑ d ∈ Finset.Icc (1 : Nat) 6, bnat (sol.ADB l d) = 1 :=
  ⟨constr6_forces_used h, constr6_day_sum h⟩

/-- C3 amended witness: the constraint of truck 0 evaluated on the
assignment in which every truck is used with arrival day 1. -/
theorem arrivalday_amended_witness :
    solDay.Z 0 = true ∧
    ∑ d ∈ Finset.Icc (1 : Nat) 6, bnat (solDay.ADB 0 d) = 1 :=
  arrivalday_amended solDay 0 (by unfold constr6; decide)

/-- C8: in every assignment satisfying the family-6 constraints of the
built model, all 300 trucks of the pool are used. -/
theorem all_trucks_forced_used (sol : Solution) (h : constr6Sat sol) :
    ∀ l < 300, sol.Z l = true := by
  intro l hl
  exact constr6_forces_used (h l hl)

set_option maxRecDepth 4000 in
/-- C8 witness: the all-used day-1 assignment satisfies family 6, and
the theorem yields that truck 5 of the pool is used. -/
theorem all_trucks_forced_used_witness :
    solDay.Z 5 = true :=
  all_trucks_forced_used solDay (by unfold constr6Sat constr6; decide)
    5 (by decide)

/-- C1: in every assignment satisfying constraint families 1 and 4 of
the built model, each valid (route, consignment) combination is
carried by exactly one truck of the pool, and that truck is used. -/
theorem exactly_one_truck (inp : OptInput) (sol : Solution)
    (i j : ID) (k : Nat)
    (hmem : (i, j, k) ∈ valid_combinations inp)
    (h1 : constr1Sat inp sol) (h4 : constr4Sat inp sol) :
    ∃ l, l < 300 ∧ sol.X i j k l = true ∧ sol.Z l = true ∧
      ∀ m, m < 300 → sol.X i j k m = true → m = l := by
  have hsum : ∑ l ∈ Finset.range 300,
      bnat (sol.X i j k l) * bnat (sol.Z l) = 1 := h4 (i, j, k) hmem
  have hkey : ∑ l ∈ Finset.range 300,
      bnat (sol.X i j k l) * bnat (sol.Z l)
      = ∑ l ∈ Finset.range 300,
        (if sol.X i j k l = true ∧ sol.Z l = true then 1 else 0) := by
    refine Finset.sum_congr rfl ?_
    intro l _
    cases hx : sol.X i j k l <;> cases hz : sol.Z l <;>
      simp [bnat, hx, hz]
  have hcard : (Finset.filter
      (fun l => sol.X i j k l = true ∧ sol.Z l = true)
      (Finset.range 300)).card = 1 := by
    rw [Finset.card_filter, ← hkey]
    exact hsum
  obtain ⟨a, ha⟩ := Finset.card_eq_one.mp hcard
  have haMem : a ∈ Finset.filter
      (fun l => sol.X i j k l = true ∧ sol.Z l = true)
      (Finset.range 300) := by
    rw [ha]
    exact Finset.mem_singleton_self a
  have haF := Finset.mem_filter.mp haMem
  refine ⟨a, Finset.mem_range.mp haF.1, haF.2.1, haF.2.2, ?_⟩
  intro m hm hXm
  have hZm : sol.Z m = true := by
    by_contra hzc
    have hzf : sol.Z m = false := by
      cases hzz : sol.Z m
      · rfl
      · exact absurd hzz hzc
    have h1m := h1 m hm
    rw [hzf] at h1m
    simp only [bnat, Bool.false_eq_true, if_false, Nat.mul_zero,
      Nat.le_zero] at h1m
    have hmemMap : bnat (sol.X i j k m) ∈
        (valid_combinations inp).map
          (fun t => bnat (sol.X t.1 t.2.1 t.2.2 m)) :=
      List.mem_map_of_mem _ hmem
    have hzero := sum_zero_of_mem h1m hmemMap
    rw [hXm] at hzero
    simp [bnat] at hzero
  have hmF : m ∈ Finset.filter
      (fun l => sol.X i j k l = true ∧ sol.Z l = true)
      (Finset.range 300) :=
    Finset.mem_filter.mpr ⟨Finset.mem_range.mpr hm, hXm, hZm⟩
  rw [ha] at hmF
  exact Finset.mem_singleton.mp hmF

set_option maxRecDepth 4000 in
/-- C1 witness: in the assignment where truck 0 alone carries the
single consignment of inpA and is used, families 1 and 4 hold and the
theorem produces the unique carrying truck. -/
theorem exactly_one_truck_witness :
    ∃ l, l < 300 ∧ solA.X "A" "B" 7 l = true ∧ solA.Z l = true ∧
      ∀ m, m < 300 → solA.X "A" "B" 7 m = true → m = l :=
  exactly_one_truck inpA solA "A" "B" 7 (by decide)
    (by unfold constr1Sat; decide) (by unfold constr4Sat; decide)

/-- C4: an assignment satisfying constraint family 2 of the built
model satisfies, for each valid combination and truck, the per-tuple
bound that the departure time is at least the release hour scaled by
the assignment binary; an assigned truck therefore departs no earlier
than the release hour, while with the assignment binary at zero the
bound is met by every nonnegative departure time. -/
theorem release_bound (inp : OptInput) (sol : Solution)
    (i j : ID) (k l r : Nat)
    (hmem : (i, j, k) ∈ valid_combinations inp) (hl : l < 300)
    (hrel : releaseOf inp k = some r) (h2 : constr2Sat inp sol) :
    constr2Single r (sol.X i j k l) (sol.T l) ∧
    (sol.X i j k l = true → (r : ℚ) ≤ sol.T l) ∧
    (∀ t : ℚ, 0 ≤ t → constr2Single r false t) := by
  have hc := h2 (i, j, k) hmem l hl r hrel
  refine ⟨hc, ?_, ?_⟩
  · intro hx
    unfold constr2Single at hc
    rw [hx] at hc
    simpa [b2q] using hc
  · intro t ht
    unfold constr2Single
    simpa [b2q] using ht

/-- C4 witness: the release bound of the single consignment of inpA,
whose release hour is 8, applied to the truck-0 assignment with
departure time 8. -/
theorem release_bound_witness :
    constr2Single 8 (solA.X "A" "B" 7 0) (solA.T 0) ∧
    (solA.X "A" "B" 7 0 = true → ((8 : Nat) : ℚ) ≤ solA.T 0) ∧
    (∀ t : ℚ, 0 ≤ t → constr2Single 8 false t) :=
  release_bound inpA solA "A" "B" 7 0 8 (by decide) (by decide) rfl
    (by
      intro t ht l hl r hr
      have hv : valid_combinations inpA = [("A", "B", 7)] := by decide
      rw [hv] at ht
      have ht' : t = ("A", "B", 7) := List.mem_singleton.mp ht
      subst ht'
      have hr8 : (some 8 : Option Nat) = some r := hr
      have hr' : r = 8 := (Option.some.inj hr8).symm
      subst hr'
      unfold constr2Single
      cases hx : solA.X "A" "B" 7 l <;> simp [solA, b2q])

/-- C9: the release bound used by constraint family 2 is the hour
component of the planned end of loading with the minutes discarded,
so with a positive minute component the bound is satisfied by a
departure exactly at the whole hour, which precedes the actual
release instant by the minute fraction, at most 59 minutes. -/
theorem release_whole_hour (t : ClockTime)
    (h59 : t.minute ≤ 59) (h0 : 0 < t.minute) :
    releaseHourOf t = t.hour ∧
    constr2Single (releaseHourOf t) true ((t.hour : ℚ)) ∧
    ((t.hour : ℚ)) < instantHours t ∧
    instantHours t - ((t.hour : ℚ)) ≤ 59 / 60 := by
  refine ⟨rfl, ?_, ?_, ?_⟩
  · unfold constr2Single releaseHourOf
    simp [b2q]
  · unfold instantHours
    have hpos : (0 : ℚ) < (t.minute : ℚ) := by exact_mod_cast h0
    have hdiv : (0 : ℚ) < (t.minute : ℚ) / 60 := by positivity
    linarith
  · unfold instantHours
    have hle : (t.minute : ℚ) ≤ 59 := by exact_mod_cast h59
    linarith

/-- C9 witness: a consignment released at 08:30 gives the model bound
8, satisfied by departing at 8.0, half an hour before the release
instant 8.5. -/
theorem release_whole_hour_witness :
    releaseHourOf { hour := 8, minute := 30 } = 8 ∧
    constr2Single (releaseHourOf { hour := 8, minute := 30 }) true
      (((8 : Nat) : ℚ)) ∧
    (((8 : Nat) : ℚ)) < instantHours { hour := 8, minute := 30 } ∧
    instantHours { hour := 8, minute := 30 } - (((8 : Nat) : ℚ)) ≤ 59 / 60 :=
  release_whole_hour { hour := 8, minute := 30 } (by decide) (by decide)

/-- Helper: a successful family-3 generation run implies that every
processed tuple found its destination row and its lane row. -/
lemma genC3Aux_ok_lookups {inp : OptInput} {L : List (ID × ID × Nat)}
    {cs : List C3Rec} (h : genC3Aux inp L = Except.ok cs) :
    ∀ t ∈ L, (∃ dr, destLookup inp t.2.1 = some dr) ∧
      (∃ tr, laneLookup inp t.1 t.2.1 = some tr) := by
  induction L generalizing cs with
  | nil =>
    intro t ht
    cases ht
  | cons a rest ih =>
    intro t ht
    unfold genC3Aux at h
    cases hd : destLookup inp a.2.1 with
    | none =>
      rw [hd] at h
      simp at h
    | some dr =>
      rw [hd] at h
      cases hlk : laneLookup inp a.1 a.2.1 with
      | none =>
        rw [hlk] at h
        simp at h
      | some tr =>
        rw [hlk] at h
        cases hrec : genC3Aux inp rest with
        | error e =>
          rw [hrec] at h
          simp at h
        | ok cs2 =>
          rcases List.mem_cons.mp ht with heq | hrest
          · subst heq
            exact ⟨⟨dr, hd⟩, ⟨tr, hlk⟩⟩
          · exact ih hrec t hrest

/-- Helper: a failing family-3 generation run always fails with
IndexError, the exception of indexing an empty pandas selection. -/
lemma genC3Aux_error_index {inp : OptInput} {L : List (ID × ID × Nat)}
    {e : PyErr} (h : genC3Aux inp L = Except.error e) :
    e = PyErr.indexError := by
  induction L generalizing e with
  | nil => simp [genC3Aux] at h
  | cons a rest ih =>
    unfold genC3Aux at h
    cases hd : destLookup inp a.2.1 with
    | none =>
      rw [hd] at h
      exact (Except.error.inj h).symm
    | some dr =>
      rw [hd] at h
      cases hlk : laneLookup inp a.1 a.2.1 with
      | none =>
        rw [hlk] at h
        exact (Except.error.inj h).symm
      | some tr =>
        rw [hlk] at h
        cases hrec : genC3Aux inp rest with
        | error e2 =>
          rw [hrec] at h
          rw [← Except.error.inj h]
          exact ih hrec
        | ok cs2 =>
          rw [hrec] at h
          simp at h

/-- Helper: from a successful family-3 generation run, each processed
tuple contributes, for every truck of the pool, the generated record
carrying the looked-up shift window and travel time. -/
lemma genC3Aux_mem {inp : OptInput} {L : List (ID × ID × Nat)}
    {cs : List C3Rec} {i j : ID} {k l : Nat} {dr : DestRow}
    {tr : TruckRow}
    (h : genC3Aux inp L = Except.ok cs)
    (hmem : (i, j, k) ∈ L)
    (hd : destLookup inp j = some dr)
    (htr : laneLookup inp i j = some tr)
    (hl : l < 300) :
    ({ i := i, j := j, k := k, l := l,
       start_shift := dr.Start_of_shift,
       end_shift := dr.End_of_lay_on,
       travel_time := tr.OSRM_time_sek / 3600 } : C3Rec) ∈ cs := by
  induction L generalizing cs with
  | nil => cases hmem
  | cons a rest ih =>
    unfold genC3Aux at h
    cases hd2 : destLookup inp a.2.1 with
    | none =>
      rw [hd2] at h
      simp at h
    | some dr2 =>
      rw [hd2] at h
      cases hlk2 : laneLookup inp a.1 a.2.1 with
      | none =>
        rw [hlk2] at h
        simp at h
      | some tr2 =>
        rw [hlk2] at h
        cases hrec : genC3Aux inp rest with
        | error e =>
          rw [hrec] at h
          simp at h
        | ok cs2 =>
          rw [hrec] at h
          have hcs : genC3Tuple dr2 tr2 a.1 a.2.1 a.2.2 ++ cs2 = cs :=
            Except.ok.inj h
          rcases List.mem_cons.mp hmem with heq | hrest
          · subst heq
            have hdr : dr2 = dr := Option.some.inj (hd2.symm.trans hd)
            have htr2 : tr2 = tr := Option.some.inj (hlk2.symm.trans htr)
            subst hdr
            subst htr2
            rw [← hcs]
            refine List.mem_append_left _ ?_
            unfold genC3Tuple
            exact List.mem_map_of_mem _ (List.mem_range.mpr hl)
          · rw [← hcs]
            exact List.mem_append_right _ (ih hrec hrest)

/-- C6 counterexample: for an input whose single valid combination has
no lane entry, family-3 generation fails with IndexError and not with
the DataValidationError the claim names, and at that point the
variable-construction phase has already added variables to the model. -/
theorem missing_lane_cex :
    genC3 inpNoLane = Except.error PyErr.indexError ∧
    genC3 inpNoLane ≠ Except.error PyErr.dataValidationError ∧
    0 < (initModel inpNoLane { numVars := 0, numConstrs := 0 }).numVars := by
  refine ⟨rfl, ?_, by decide⟩
  intro hcontra
  have h1 : Except.error (α := List C3Rec) PyErr.indexError
      = Except.error PyErr.dataValidationError := hcontra
  cases Except.error.inj h1

/-- C6 amended: when a valid combination has no matching lane entry or
no destination row, constraint generation never silently drops the
combination; the whole family-3 generation aborts with IndexError. -/
theorem missing_lane_aborts (inp : OptInput) (i j : ID) (k : Nat)
    (hmem : (i, j, k) ∈ valid_combinations inp)
    (hmiss : laneLookup inp i j = none ∨ destLookup inp j = none) :
    genC3 inp = Except.error PyErr.indexError := by
  unfold genC3
  cases hres : genC3Aux inp (valid_combinations inp) with
  | ok cs =>
    have hlk := genC3Aux_ok_lookups hres (i, j, k) hmem
    rcases hmiss with hm | hm
    · obtain ⟨tr, htr⟩ := hlk.2
      rw [hm] at htr
      cases htr
    · obtain ⟨dr, hdr⟩ := hlk.1
      rw [hm] at hdr
      cases hdr
  | error e =>
    rw [genC3Aux_error_index hres]

/-- C6 amended witness: the missing-lane input aborts family-3
generation with IndexError. -/
theorem missing_lane_aborts_witness :
    genC3 inpNoLane = Except.error PyErr.indexError :=
  missing_lane_aborts inpNoLane "A" "B" 7 (by decide) (Or.inl rfl)

/-- C5: a successful family-3 generation run contains, for every valid
combination and every truck of the pool, the constraint pair bounding
the effective arrival expression of that tuple, namely departure time
plus travel time scaled by the assignment binary plus 24 times the
arrival-day offset minus 24 times the per-tuple integer day-wrap
correction variable, between the shift start and the shift end of the
destination. -/
theorem operational_window (inp : OptInput) (sol : Solution)
    (cs : List C3Rec) (i j : ID) (k l : Nat) (dr : DestRow)
    (tr : TruckRow)
    (hok : genC3 inp = Except.ok cs)
    (hmem : (i, j, k) ∈ valid_combinations inp)
    (hl : l < 300)
    (hd : destLookup inp j = some dr)
    (htr : laneLookup inp i j = some tr)
    (hsat : ∀ c ∈ cs, sat3 c sol) :
    dr.Start_of_shift ≤ arrivalExpr sol i j k l (tr.OSRM_time_sek / 3600) ∧
    arrivalExpr sol i j k l (tr.OSRM_time_sek / 3600) ≤ dr.End_of_lay_on := by
  unfold genC3 at hok
  have hrec := genC3Aux_mem hok hmem hd htr hl
  have hs := hsat _ hrec
  unfold sat3 at hs
  exact hs

set_option maxRecDepth 4000 in
/-- C5 witness: for inpA, whose destination shift window is all day,
the all-zero assignment meets every generated family-3 constraint, and
the theorem bounds the arrival expression of the single combination
for truck 0. -/
theorem operational_window_witness :
    (0 : ℚ) ≤ arrivalExpr zeroSol "A" "B" 7 0 (3600 / 3600) ∧
    arrivalExpr zeroSol "A" "B" 7 0 (3600 / 3600) ≤ (24 : ℚ) :=
  operational_window inpA zeroSol csA "A" "B" 7 0
    { Destination_ID := "B", Start_of_shift := 0, End_of_lay_on := 24,
      Sorting_capacity := 10 }
    { Origin_ID := "A", Destination_ID := "B", OSRM_time_sek := 3600 }
    rfl (by decide) (by decide) rfl rfl
    (by
      have hform : csA = (List.range 300).map (fun l =>
          ({ i := "A", j := "B", k := 7, l := l, start_shift := (0 : ℚ),
             end_shift := (24 : ℚ),
             travel_time := (3600 : ℚ) / 3600 } : C3Rec)) := rfl
      rw [hform]
      intro c hc
      obtain ⟨l, hl, hcl⟩ := List.mem_map.mp hc
      subst hcl
      unfold sat3 arrivalExpr dayOffset
      simp [zeroSol, b2q])

/-- C7 amended: one build adds a number of variables and constraints
determined only by the input, so construction is deterministic; but
because the solver model persists across builds, a second build on the
same optimizer doubles both counts instead of reproducing them. -/
theorem build_counts (inp : OptInput) (m : GModel) :
    (buildOnce inp m).numVars
        = m.numVars + ((valid_combinations inp).length * 600 + 2700) ∧
    (buildOnce inp m).numConstrs
        = m.numConstrs + ((valid_combinations inp).length * 901 + 606) ∧
    (buildOnce inp (buildOnce inp { numVars := 0, numConstrs := 0 })).numVars
        = 2 * (buildOnce inp { numVars := 0, numConstrs := 0 }).numVars ∧
    (buildOnce inp (buildOnce inp { numVars := 0, numConstrs := 0 })).numConstrs
        = 2 * (buildOnce inp { numVars := 0, numConstrs := 0 }).numConstrs := by
  unfold buildOnce initModel add_constraints
  refine ⟨?_, ?_, ?_, ?_⟩ <;> dsimp only <;> omega

/-- C7 counterexample: for the one-consignment input inpA, the model
after a second build does not have the variable count of the model
after the first build; the first build leaks into the second through
the persisting solver model. -/
theorem build_counts_cex :
    (buildOnce inpA (buildOnce inpA { numVars := 0, numConstrs := 0 })).numVars
      ≠ (buildOnce inpA { numVars := 0, numConstrs := 0 }).numVars := by
  decide

end DHLOpt
